/-
Verification of the MDTF-diagnostics job-execution core
(`src/shared_diagnostic.py`, `src/environment_manager.py`, `src/util.py`)
against its design specification.

The Python source is shallowly embedded: the filesystem is a list of the
paths that exist, each Python function becomes an executable Lean function,
Python exceptions become `Except`, and the abstract `EnvironmentManager`
methods become function parameters.
-/
import Mathlib

namespace MDTF

/-- The filesystem, modelled as the list of paths that exist
(`os.path.isfile` / `os.path.exists` become list membership). -/
def FS := List String

instance : Membership String FS := inferInstanceAs (Membership String (List String))

/-- `os.path.isfile(p)` / `os.path.exists(p)` on the modelled filesystem. -/
def FS.isfile (fs : FS) (p : String) : Bool := List.contains fs p

/-- Python's `str.lower()` (ASCII lowering, character by character). -/
def pyLower (s : String) : String := String.mk (s.data.map Char.toLower)

/-- `util.makefilepath(varname, timefreq, casename, datadir)`:
`datadir+"/"+timefreq+"/"+casename+"."+varname+"."+timefreq+".nc"`. -/
def makefilepath (varname timefreq casename datadir : String) : String :=
  datadir ++ "/" ++ timefreq ++ "/" ++ casename ++ "." ++ varname ++ "." ++ timefreq ++ ".nc"

/-- A varlist entry after `_parse_pod_varlist` has normalised it: the
`required` flag is set and the `alternates` key holds a list (`[]` models an
absent/deleted `alternates` key, which the resolver treats identically to an
empty list). -/
structure Var where
  name_in_model : String
  freq : String
  required : Bool
  alternates : List String
deriving Repr, DecidableEq

/-- Termination measure for the alternates recursion of
`_check_for_varlist_files`: each recursive call is on a singleton whose
entry has its alternates removed. -/
def varlistWeight (vl : List Var) : Nat :=
  (vl.map (fun v => v.alternates.length + 1)).sum

/-- `Diagnostic._check_for_varlist_files(varlist)`.  The Python loop
accumulates `found_list` / `missing_list` over the items; for a required
item whose primary path is absent and whose alternates list is non-empty it
recurses on `[new_var]` where `new_var` is a copy of the item with
`name_in_model` replaced by the alternate and the `alternates` key deleted.
The post-state of each item is threaded through explicitly (the Python code
mutates only the copy `new_var`, never the items of `varlist`), and the
final `[x for x in l if x]` filters are applied on return. -/
def checkForVarlistFiles (fs : FS) (casename datadir : String) :
    List Var → List Var × List String × List String
  | [] => ([], [], [])
  | v :: rest =>
    let filepath := makefilepath v.name_in_model v.freq casename datadir
    let step : Var × List String × List String :=
      if fs.isfile filepath then (v, [filepath], [])
      else if v.required = false then (v, [], [])
      else if h : v.alternates = [] then (v, [], [filepath])
      else
        let rs := v.alternates.map (fun alt =>
          checkForVarlistFiles fs casename datadir
            [{ v with name_in_model := alt, alternates := [] }])
        (v, rs.flatMap (fun r => r.2.1), rs.flatMap (fun r => r.2.2))
    let rec_rest := checkForVarlistFiles fs casename datadir rest
    (step.1 :: rec_rest.1,
     (step.2.1 ++ rec_rest.2.1).filter (fun x => x ≠ ""),
     (step.2.2 ++ rec_rest.2.2).filter (fun x => x ≠ ""))
termination_by vl => varlistWeight vl
decreasing_by
  all_goals simp [varlistWeight]
  all_goals cases hv : v.alternates with
  | nil => exact absurd hv h
  | cons a as => simp [hv]; omega

/-- The `found_files` component of the resolver's result. -/
def foundFiles (fs : FS) (casename datadir : String) (vl : List Var) : List String :=
  (checkForVarlistFiles fs casename datadir vl).2.1

/-- The `missing_files` component of the resolver's result. -/
def missingFiles (fs : FS) (casename datadir : String) (vl : List Var) : List String :=
  (checkForVarlistFiles fs casename datadir vl).2.2

/-! ## `_parse_pod_varlist` -/

/-- The `alternates` field of a raw varlist entry as it comes out of the
settings file: absent, a scalar, or a list. -/
inductive AltField
  | absent
  | scalar (s : String)
  | list (l : List String)
deriving Repr, DecidableEq

/-- A raw varlist entry before `_parse_pod_varlist` normalises it: the
`requirement` key may be absent and `alternates` may be absent or scalar. -/
structure RawVar where
  name_in_model : String
  freq : String
  requirement : Option String
  alternates : AltField
deriving Repr, DecidableEq

/-- The closed frequency list checked by the assert in `_parse_pod_varlist`:
`['1hr', '3hr', '6hr', 'day', 'mon']`. -/
def allowedFreqs : List String := ["1hr", "3hr", "6hr", "day", "mon"]

/-- `default_file_required = False` in `_parse_pod_varlist`. -/
def defaultFileRequired : Bool := false

/-- The non-failing part of one iteration of `_parse_pod_varlist`: set
`required` from the `requirement` key (defaulting to
`default_file_required`), default a missing `alternates` key to `[]` and
wrap a scalar `alternates` into a singleton list. -/
def parseVarlistEntry (v : RawVar) : Var :=
  { name_in_model := v.name_in_model
    freq := v.freq
    required :=
      match v.requirement with
      | some r => pyLower r == "required"
      | none => defaultFileRequired
    alternates :=
      match v.alternates with
      | .absent => []
      | .scalar s => [s]
      | .list l => l }

/-- `Diagnostic._parse_pod_varlist(varlist)`: iterate the entries in order;
the assert on `var['freq']` raises (an `AssertionError`, modelled as
`Except.error`) at the first entry whose frequency is not in
`allowedFreqs`; otherwise every entry is normalised. -/
def parsePodVarlist : List RawVar → Except String (List Var)
  | [] => Except.ok []
  | v :: rest =>
    if allowedFreqs.contains v.freq then
      match parsePodVarlist rest with
      | Except.ok l => Except.ok (parseVarlistEntry v :: l)
      | Except.error e => Except.error e
    else
      Except.error ("WARNING: didn't find " ++ v.freq ++ " in frequency options")

/-! ## `EnvironmentManager.setUp` (environment binding and deduplication)

`setUp` first binds every pod to an environment name (`set_pod_env`), adding
each name to the set `self.envs`, then calls `create_environment` once for
each element of that set.  The Python `set` is modelled as a
duplicate-free list in first-insertion order. -/

/-- `self.envs.add e` on the set modelled as a duplicate-free list. -/
def envsAdd (envs : List String) (e : String) : List String :=
  if envs.contains e then envs else envs ++ [e]

/-- The first loop of `EnvironmentManager.setUp`: bind each pod to its
environment name with `set_pod_env` and accumulate the set `self.envs`.
The binding rule is abstract (`set_pod_env` is an abstract method). -/
def setUpEnvs {α : Type} (set_pod_env : α → String) (pods : List α) : List String :=
  pods.foldl (fun envs pod => envsAdd envs (set_pod_env pod)) []

/-- The second loop of `EnvironmentManager.setUp`: the ordered list of
`create_environment` invocations, one per element of `self.envs`. -/
def setUpCreateCalls {α : Type} (set_pod_env : α → String) (pods : List α) : List String :=
  setUpEnvs set_pod_env pods

/-- `CondaEnvironmentManager.set_pod_env(pod)`: map the pod's
`required_programs` (lower-cased) to one of the three fixed environment
names by the R / NCL / default-python priority rule. -/
def setPodEnv (required_programs : List String) : String :=
  let keys := required_programs.map pyLower
  if keys.contains "r" || keys.contains "rscript" then "_MDTF-diagnostics-R"
  else if keys.contains "ncl" then "_MDTF-diagnostics-NCL"
  else "_MDTF-diagnostics-python"

/-! ## `CondaEnvironmentManager.create_environment` / `_call_conda_create`

A Python runtime error that escapes the function is modelled as
`Except.error`.  `subprocess.Popen` is fire-and-forget in the source (its
exit status is never read), so a spawned creation command is modelled by
returning the command string with no success information attached. -/

/-- A Python runtime error escaping the embedded code. -/
inductive PyError
  | unboundLocal (name : String)
deriving Repr, DecidableEq

/-- The `short_name` computation of `_call_conda_create`:
`'base'` for the bare prefix, else strip `'_MDTF-diagnostics-'`. -/
def condaShortName (env_name : String) : String :=
  let pre := "_MDTF-diagnostics"
  if env_name = pre then "base" else env_name.drop (pre.length + 1)

/-- The per-environment specification file path of `_call_conda_create`:
`'{CODE_ROOT}/src/conda_env_{short_name}.yml'`. -/
def condaSpecPath (code_root env_name : String) : String :=
  code_root ++ "/src/conda_env_" ++ condaShortName env_name ++ ".yml"

/-- `CondaEnvironmentManager._call_conda_create(env_name)`.  When the spec
file exists, `conda_prefix` is assigned and the creation command is spawned
fire-and-forget (returned as a string; the source never checks its exit
status).  When the spec file is absent, the source prints a warning and
falls through to the `commands = ...` line, which references the local
`conda_prefix` that was only assigned in the `else` branch — an
`UnboundLocalError` escapes the call. -/
def callCondaCreate (fs : FS) (code_root conda_env_root env_name : String) :
    Except PyError String :=
  let path := condaSpecPath code_root env_name
  if fs.isfile path then
    let conda_prefix := conda_env_root ++ "/" ++ env_name
    Except.ok ("source " ++ code_root ++ "/src/conda_init.sh && "
      ++ "conda env create --force -q -p=\"" ++ conda_prefix
      ++ "\" -f=\"" ++ path ++ "\"")
  else
    Except.error (PyError.unboundLocal "conda_prefix")

/-- `CondaEnvironmentManager.create_environment(env_name)`: probe
`conda env list | grep -qF conda_prefix` (modelled by the oracle
`env_list_has`); if the environment is already present do nothing, else
call `_call_conda_create`.  Returns the list of spawned creation commands. -/
def createEnvironment (fs : FS) (env_list_has : String → Bool)
    (code_root conda_env_root env_name : String) : Except PyError (List String) :=
  if env_list_has (conda_env_root ++ "/" ++ env_name) then Except.ok []
  else (callCondaCreate fs code_root conda_env_root env_name).map (fun c => [c])

/-- `EnvironmentManager.setUp` specialised to the conda manager: bind every
pod (given by its `required_programs` list) to an environment name, then
call `create_environment` for each distinct name.  An exception raised by
any `create_environment` call propagates out of `setUp`, aborting the whole
batch.  On success, returns the bound environment set and all spawned
creation commands. -/
def condaSetUp (fs : FS) (env_list_has : String → Bool)
    (code_root conda_env_root : String) (pods : List (List String)) :
    Except PyError (List String × List String) :=
  let envs := setUpEnvs setPodEnv pods
  (envs.mapM (createEnvironment fs env_list_has code_root conda_env_root)).map
    (fun cmds => (envs, cmds.flatten))

/-! ## `EnvironmentManager.run` and `tearDown`

`run` loops once over the pods: `pod.setUp()` recomputes
`pod.missing_files` via the dependency resolver; a pod with missing files
is skipped (`continue`) before its log file is opened; otherwise the log
file is opened, the four-fragment command chain is composed and
`subprocess.Popen` is attempted (an `OSError` is caught and only printed).
A second loop then waits on every non-`None` process handle and closes
every non-`None` log-file handle, setting both to `None`. -/

/-- A pod as `EnvironmentManager.run` sees it after `Diagnostic.__init__`:
settings fields plus the parsed varlist. -/
structure Pod where
  name : String
  program : String
  driver : String
  varlist : List Var
  required_programs : List String
  pod_env_var_keys : List String
  required_python_modules : List String
  required_ncl_scripts : List String
  required_r_packages : List String
deriving Repr, DecidableEq

/-- `Diagnostic.run_command()`: `self.program + ' ' + self.driver`. -/
def Pod.runCommand (p : Pod) : String := p.program ++ " " ++ p.driver

/-- `Diagnostic.validate_command()`: the fixed-shape invocation of
`src/validate_environment.sh` built by joining each dependency list with
its option flag. -/
def Pod.validateCommand (code_root : String) (p : Pod) : String :=
  (code_root ++ "/src/validate_environment.sh")
    ++ " -v"
    ++ String.intercalate " -p " ("" :: p.required_programs)
    ++ String.intercalate " -z " ("" :: p.pod_env_var_keys)
    ++ String.intercalate " -a " ("" :: p.required_python_modules)
    ++ String.intercalate " -b " ("" :: p.required_ncl_scripts)
    ++ String.intercalate " -c " ("" :: p.required_r_packages)

/-- The test-mode substitution applied to the run fragment:
`'echo "TEST MODE: would call {}"'.format(run_command)`. -/
def testModeEcho (run_command : String) : String :=
  "echo \"TEST MODE: would call " ++ run_command ++ "\""

/-- The four ordered command fragments of `EnvironmentManager.run`:
`[activate, validate, run, deactivate]`, with the run fragment replaced by
the test-mode echo when `test_mode` is set. -/
def runFragments (test_mode : Bool) (activate validate run_c deactivate : String) :
    List String :=
  let run_command := if test_mode then testModeEcho run_c else run_c
  [activate, validate, run_command, deactivate]

/-- `' && '.join([s for s in commands if s])`: the composed command chain,
with empty fragments omitted. -/
def composeCommands (test_mode : Bool) (activate validate run_c deactivate : String) :
    String :=
  String.intercalate " && "
    ((runFragments test_mode activate validate run_c deactivate).filter
      (fun s => s ≠ ""))

/-- Observable outcome of `EnvironmentManager.run` for one pod: which
handles were created, which events happened, and the final handle values.
`process_obj` holds the composed command of the live subprocess while one
exists. -/
structure PodOutcome where
  pod : Pod
  log_opened : Bool
  spawned_cmd : Option String
  waited : Bool
  log_closed : Bool
  process_obj : Option String
  logfile_obj : Option Bool
deriving Repr, DecidableEq

/-- One iteration of the first (spawn) loop of `EnvironmentManager.run`:
`pod.setUp()` resolves dependencies; a pod with missing files is skipped
before its log file is opened; otherwise the log is opened, the command
chain composed, and `Popen` attempted (`spawn_ok` decides whether the
`OSError` branch is taken — on failure the error is only printed and
`process_obj` stays `None`). -/
def spawnStep (fs : FS) (casename datadir code_root : String) (test_mode : Bool)
    (activate_env_command deactivate_env_command : Pod → String)
    (spawn_ok : Pod → Bool) (p : Pod) : PodOutcome :=
  let missing := missingFiles fs casename datadir p.varlist
  if missing ≠ [] then
    { pod := p, log_opened := false, spawned_cmd := none, waited := false
      log_closed := false, process_obj := none, logfile_obj := none }
  else
    let commands := composeCommands test_mode (activate_env_command p)
      (p.validateCommand code_root) p.runCommand (deactivate_env_command p)
    if spawn_ok p then
      { pod := p, log_opened := true, spawned_cmd := some commands, waited := false
        log_closed := false, process_obj := some commands, logfile_obj := some true }
    else
      { pod := p, log_opened := true, spawned_cmd := none, waited := false
        log_closed := false, process_obj := none, logfile_obj := some true }

/-- One iteration of the second (join) loop of `EnvironmentManager.run`:
wait on a non-`None` process handle and set it to `None`, close a
non-`None` log-file handle and set it to `None`. -/
def waitStep (o : PodOutcome) : PodOutcome :=
  let o' :=
    match o.process_obj with
    | some _ => { o with waited := true, process_obj := none }
    | none => o
  match o'.logfile_obj with
  | some _ => { o' with log_closed := true, logfile_obj := none }
  | none => o'

/-- `EnvironmentManager.run`: the spawn loop over all pods followed by the
join loop over all pods. -/
def emRun (fs : FS) (casename datadir code_root : String) (test_mode : Bool)
    (activate_env_command deactivate_env_command : Pod → String)
    (spawn_ok : Pod → Bool) (pods : List Pod) : List PodOutcome :=
  (pods.map (spawnStep fs casename datadir code_root test_mode
    activate_env_command deactivate_env_command spawn_ok)).map waitStep

/-- `EnvironmentManager.tearDown`: call `pod.tearDown()` for every pod in
`self.pods`, then `destroy_environment` for every name in `self.envs`.
Returns the two ordered invocation lists. -/
def emTearDown (pods : List Pod) (envs : List String) : List String × List String :=
  (pods.map (fun p => p.name), envs)

/-! ## Helper lemmas about the dependency resolver -/

/-- A constructed data-file path is never the empty string, so the final
`[x for x in l if x]` filters of the resolver never drop a path. -/
theorem makefilepath_ne_empty (a f c d : String) : makefilepath a f c d ≠ "" := by
  intro h
  have h2 := congrArg String.length h
  simp [makefilepath, String.length_append] at h2
  exact absurd h2.2 (by decide)

theorem checkForVarlistFiles_nil (fs : FS) (c d : String) :
    checkForVarlistFiles fs c d [] = ([], [], []) := by
  simp [checkForVarlistFiles]

/-- Every path the resolver reports is a constructed file path, hence
non-empty. -/
theorem check_ne_empty (fs : FS) (c d : String) (vl : List Var) :
    (∀ x ∈ (checkForVarlistFiles fs c d vl).2.1, x ≠ "") ∧
    (∀ x ∈ (checkForVarlistFiles fs c d vl).2.2, x ≠ "") := by
  cases vl with
  | nil => simp [checkForVarlistFiles_nil]
  | cons v rest =>
    rw [checkForVarlistFiles]
    constructor <;>
    · intro x hx
      simp only [List.mem_filter, decide_eq_true_eq] at hx
      simpa using hx.2

/-- The found/missing components of the resolver are already filtered. -/
theorem checkForVarlistFiles_filter (fs : FS) (c d : String) (vl : List Var) :
    ((checkForVarlistFiles fs c d vl).2.1).filter (fun x => x ≠ "") =
      (checkForVarlistFiles fs c d vl).2.1 ∧
    ((checkForVarlistFiles fs c d vl).2.2).filter (fun x => x ≠ "") =
      (checkForVarlistFiles fs c d vl).2.2 := by
  have h := check_ne_empty fs c d vl
  constructor <;> rw [List.filter_eq_self] <;> intro a ha <;> simp
  · exact h.1 a ha
  · exact h.2 a ha

/-- Resolution of a list decomposes as resolution of the head singleton
followed by resolution of the tail. -/
theorem checkForVarlistFiles_cons (fs : FS) (c d : String) (v : Var) (rest : List Var) :
    checkForVarlistFiles fs c d (v :: rest) =
      (v :: (checkForVarlistFiles fs c d rest).1,
       (checkForVarlistFiles fs c d [v]).2.1 ++ (checkForVarlistFiles fs c d rest).2.1,
       (checkForVarlistFiles fs c d [v]).2.2 ++ (checkForVarlistFiles fs c d rest).2.2) := by
  have hf := checkForVarlistFiles_filter fs c d rest
  have hne := check_ne_empty fs c d rest
  conv_lhs => rw [checkForVarlistFiles]
  conv_rhs => rw [checkForVarlistFiles]
  rw [checkForVarlistFiles_nil]
  refine Prod.ext ?_ (Prod.ext ?_ ?_) <;>
    simp [List.filter_append, hf.1, hf.2]
  · split_ifs <;> rfl
  · intro a ha; exact hne.1 a ha
  · intro a ha; exact hne.2 a ha

/-- Resolution distributes over appending requirement lists. -/
theorem checkForVarlistFiles_append (fs : FS) (c d : String) (l₁ l₂ : List Var) :
    checkForVarlistFiles fs c d (l₁ ++ l₂) =
      ((checkForVarlistFiles fs c d l₁).1 ++ (checkForVarlistFiles fs c d l₂).1,
       (checkForVarlistFiles fs c d l₁).2.1 ++ (checkForVarlistFiles fs c d l₂).2.1,
       (checkForVarlistFiles fs c d l₁).2.2 ++ (checkForVarlistFiles fs c d l₂).2.2) := by
  induction l₁ with
  | nil => simp [checkForVarlistFiles_nil]
  | cons v rest ih =>
    rw [List.cons_append, checkForVarlistFiles_cons, checkForVarlistFiles_cons fs c d v rest]
    simp [ih]

/-- Resolution of a singleton whose file exists at the primary path. -/
theorem check_singleton_found (fs : FS) (c d : String) (v : Var)
    (hfile : fs.isfile (makefilepath v.name_in_model v.freq c d) = true) :
    checkForVarlistFiles fs c d [v] =
      ([v], [makefilepath v.name_in_model v.freq c d], []) := by
  simp [checkForVarlistFiles, hfile, makefilepath_ne_empty]

/-- Resolution of a singleton optional requirement with an absent file:
neither found nor missing. -/
theorem check_singleton_optional (fs : FS) (c d : String) (v : Var)
    (hfile : fs.isfile (makefilepath v.name_in_model v.freq c d) = false)
    (hreq : v.required = false) :
    checkForVarlistFiles fs c d [v] = ([v], [], []) := by
  simp [checkForVarlistFiles, hfile, hreq]

/-- Resolution of a singleton required requirement with no alternates and
an absent file: the primary path is recorded missing. -/
theorem check_singleton_noalt_missing (fs : FS) (c d : String) (v : Var)
    (hfile : fs.isfile (makefilepath v.name_in_model v.freq c d) = false)
    (hreq : v.required = true) (halt : v.alternates = []) :
    checkForVarlistFiles fs c d [v] =
      ([v], [], [makefilepath v.name_in_model v.freq c d]) := by
  simp [checkForVarlistFiles, hfile, hreq, halt, makefilepath_ne_empty]

/-- Resolution of a singleton with no alternates, required, in both
filesystem cases at once. -/
theorem check_singleton_noalt (fs : FS) (c d : String) (v : Var)
    (hreq : v.required = true) (halt : v.alternates = []) :
    checkForVarlistFiles fs c d [v] =
      ([v],
       if fs.isfile (makefilepath v.name_in_model v.freq c d) then
         [makefilepath v.name_in_model v.freq c d] else [],
       if fs.isfile (makefilepath v.name_in_model v.freq c d) then []
         else [makefilepath v.name_in_model v.freq c d]) := by
  by_cases hf : fs.isfile (makefilepath v.name_in_model v.freq c d)
  · simp [hf, check_singleton_found fs c d v hf]
  · simp only [Bool.not_eq_true] at hf
    simp [hf, check_singleton_noalt_missing fs c d v hf hreq halt]

/-- The recursion over the alternates of a required requirement: each
alternate is resolved as a fresh requirement with its alternates removed;
alternates whose file exists end up in `found`, the others in `missing`
(each under the **alternate's** path). -/
theorem check_alternates_flatMap (fs : FS) (c d : String) (v : Var)
    (hreq : v.required = true) (alts : List String) :
    ((alts.map (fun alt => checkForVarlistFiles fs c d
        [{ v with name_in_model := alt, alternates := [] }])).flatMap (fun r => r.2.1) =
      (alts.filter (fun a => fs.isfile (makefilepath a v.freq c d))).map
        (fun a => makefilepath a v.freq c d)) ∧
    ((alts.map (fun alt => checkForVarlistFiles fs c d
        [{ v with name_in_model := alt, alternates := [] }])).flatMap (fun r => r.2.2) =
      (alts.filter (fun a => !fs.isfile (makefilepath a v.freq c d))).map
        (fun a => makefilepath a v.freq c d)) := by
  induction alts with
  | nil => simp
  | cons a as ih =>
    have hone := check_singleton_noalt fs c d
      { v with name_in_model := a, alternates := [] } hreq rfl
    by_cases hf : fs.isfile (makefilepath a v.freq c d) <;>
      simp_all [hone]

/-- Resolution of a singleton required requirement with a non-empty
alternates list and an absent primary file. -/
theorem check_singleton_alts (fs : FS) (c d : String) (v : Var)
    (hreq : v.required = true)
    (hfile : fs.isfile (makefilepath v.name_in_model v.freq c d) = false)
    (halt : v.alternates ≠ []) :
    checkForVarlistFiles fs c d [v] =
      ([v],
       (v.alternates.filter (fun a => fs.isfile (makefilepath a v.freq c d))).map
         (fun a => makefilepath a v.freq c d),
       (v.alternates.filter (fun a => !fs.isfile (makefilepath a v.freq c d))).map
         (fun a => makefilepath a v.freq c d)) := by
  have hfm := check_alternates_flatMap fs c d v hreq v.alternates
  rw [hreq] at hfm
  rw [checkForVarlistFiles]
  simp [hfile, hreq, halt, checkForVarlistFiles_nil, hfm.1, hfm.2]
  constructor <;>
  · rintro a x - - rfl
    exact makefilepath_ne_empty _ _ _ _

/-- The resolver leaves the requirement list itself unchanged (the source
mutates only the copies `item.copy()` made for alternates). -/
theorem check_state_id (fs : FS) (c d : String) (vl : List Var) :
    (checkForVarlistFiles fs c d vl).1 = vl := by
  induction vl with
  | nil => simp [checkForVarlistFiles_nil]
  | cons v rest ih => rw [checkForVarlistFiles_cons]; simp [ih]

/-! ## Claim theorems -/

/-- C1, counterexample: for the requirement `{name_in_model := "v",
freq := "day", required := true, alternates := ["a"]}` on an empty
filesystem (no alternate resolves), the resolver records the **alternate's**
path `d/day/c.a.day.nc` in `missing_files`; the original requirement's
primary path `d/day/c.v.day.nc` does not appear, contradicting "the
original requirement contributes to `missing`". -/
theorem c1_counterexample :
    missingFiles [] "c" "d"
        [{ name_in_model := "v", freq := "day", required := true, alternates := ["a"] }] =
      ["d/day/c.a.day.nc"] ∧
    "d/day/c.v.day.nc" ∉ missingFiles [] "c" "d"
        [{ name_in_model := "v", freq := "day", required := true, alternates := ["a"] }] := by
  constructor <;>
    simp [missingFiles, checkForVarlistFiles, makefilepath, FS.isfile]

/-- C1 (amended): for a required requirement whose primary file is absent
and whose alternates list is non-empty, each alternate is resolved as a
fresh requirement with its alternates removed; every alternate whose file
exists contributes its path to `found`, every alternate whose file is
absent contributes the **alternate's** path to `missing`, and in
particular when no alternate resolves, `missing` receives exactly the
alternates' paths (never the original requirement's primary path). -/
theorem c1_alternates_resolution (fs : FS) (c d : String) (v : Var)
    (hreq : v.required = true)
    (hfile : fs.isfile (makefilepath v.name_in_model v.freq c d) = false)
    (halt : v.alternates ≠ []) :
    foundFiles fs c d [v] =
      (v.alternates.filter (fun a => fs.isfile (makefilepath a v.freq c d))).map
        (fun a => makefilepath a v.freq c d) ∧
    missingFiles fs c d [v] =
      (v.alternates.filter (fun a => !fs.isfile (makefilepath a v.freq c d))).map
        (fun a => makefilepath a v.freq c d) ∧
    ((∀ a ∈ v.alternates, fs.isfile (makefilepath a v.freq c d) = false) →
      missingFiles fs c d [v] = v.alternates.map (fun a => makefilepath a v.freq c d)) := by
  have h := check_singleton_alts fs c d v hreq hfile halt
  refine ⟨?_, ?_, ?_⟩
  · simp [foundFiles, h]
  · simp [missingFiles, h]
  · intro hall
    simp only [missingFiles, h]
    have : v.alternates.filter (fun a => !fs.isfile (makefilepath a v.freq c d)) =
        v.alternates := by
      rw [List.filter_eq_self]
      intro a ha
      simp [hall a ha]
    rw [this]

/-- Witness for `c1_alternates_resolution` at the concrete requirement
`v`/`day` with single absent alternate `a` on the empty filesystem. -/
theorem c1_alternates_resolution_witness :
    foundFiles [] "c" "d"
        [{ name_in_model := "v", freq := "day", required := true, alternates := ["a"] }] =
      ((["a"].filter (fun a => FS.isfile [] (makefilepath a "day" "c" "d"))).map
        (fun a => makefilepath a "day" "c" "d")) ∧
    missingFiles [] "c" "d"
        [{ name_in_model := "v", freq := "day", required := true, alternates := ["a"] }] =
      ((["a"].filter (fun a => !FS.isfile [] (makefilepath a "day" "c" "d"))).map
        (fun a => makefilepath a "day" "c" "d")) ∧
    ((∀ a ∈ ["a"], FS.isfile [] (makefilepath a "day" "c" "d") = false) →
      missingFiles [] "c" "d"
          [{ name_in_model := "v", freq := "day", required := true, alternates := ["a"] }] =
        ["a"].map (fun a => makefilepath a "day" "c" "d")) :=
  c1_alternates_resolution [] "c" "d"
    { name_in_model := "v", freq := "day", required := true, alternates := ["a"] }
    rfl (by decide) (by decide)

/-- C7: for every requirement list and fixed filesystem state the resolver
mutates nothing (the requirement list it returns is the one it was given,
all writes going to copies), so resolving twice yields identical
`found`/`missing` lists. -/
theorem c7_resolver_reentrant (fs : FS) (c d : String) (vl : List Var) :
    (checkForVarlistFiles fs c d vl).1 = vl ∧
    checkForVarlistFiles fs c d (checkForVarlistFiles fs c d vl).1 =
      checkForVarlistFiles fs c d vl := by
  have h := check_state_id fs c d vl
  exact ⟨h, by rw [h]⟩

/-- C10: a varlist entry lacking a `requirement` key parses with
`required = false`; when its data file is absent it contributes to neither
`found_files` nor `missing_files`, and inserting it into any requirement
list leaves both resolver outputs unchanged, so it can never cause the job
to be skipped. -/
theorem c10_no_requirement_key_is_optional (fs : FS) (c d : String) (rv : RawVar)
    (hkey : rv.requirement = none)
    (habs : fs.isfile (makefilepath rv.name_in_model rv.freq c d) = false) :
    (parseVarlistEntry rv).required = false ∧
    foundFiles fs c d [parseVarlistEntry rv] = [] ∧
    missingFiles fs c d [parseVarlistEntry rv] = [] ∧
    (∀ l₁ l₂ : List Var,
      foundFiles fs c d (l₁ ++ parseVarlistEntry rv :: l₂) =
        foundFiles fs c d (l₁ ++ l₂) ∧
      missingFiles fs c d (l₁ ++ parseVarlistEntry rv :: l₂) =
        missingFiles fs c d (l₁ ++ l₂)) := by
  have hreq : (parseVarlistEntry rv).required = false := by
    simp [parseVarlistEntry, hkey, defaultFileRequired]
  have habs' : fs.isfile (makefilepath (parseVarlistEntry rv).name_in_model
      (parseVarlistEntry rv).freq c d) = false := habs
  have hone := check_singleton_optional fs c d (parseVarlistEntry rv) habs' hreq
  refine ⟨hreq, by simp [foundFiles, hone], by simp [missingFiles, hone], ?_⟩
  intro l₁ l₂
  constructor <;>
  · simp only [foundFiles, missingFiles, checkForVarlistFiles_append,
      checkForVarlistFiles_cons, hone]
    simp

/-- Witness for `c10_no_requirement_key_is_optional`: the entry
`{name_in_model := "v", freq := "day"}` with no `requirement` key on the
empty filesystem. -/
theorem c10_no_requirement_key_is_optional_witness :
    (parseVarlistEntry ⟨"v", "day", none, AltField.absent⟩).required = false ∧
    foundFiles [] "c" "d" [parseVarlistEntry ⟨"v", "day", none, AltField.absent⟩] = [] ∧
    missingFiles [] "c" "d" [parseVarlistEntry ⟨"v", "day", none, AltField.absent⟩] = [] ∧
    (∀ l₁ l₂ : List Var,
      foundFiles [] "c" "d"
          (l₁ ++ parseVarlistEntry ⟨"v", "day", none, AltField.absent⟩ :: l₂) =
        foundFiles [] "c" "d" (l₁ ++ l₂) ∧
      missingFiles [] "c" "d"
          (l₁ ++ parseVarlistEntry ⟨"v", "day", none, AltField.absent⟩ :: l₂) =
        missingFiles [] "c" "d" (l₁ ++ l₂)) :=
  c10_no_requirement_key_is_optional [] "c" "d" ⟨"v", "day", none, AltField.absent⟩
    rfl (by decide)

/-- C6: `_parse_pod_varlist` succeeds (no `AssertionError`) if and only if
every entry's frequency tag lies in the closed list
`['1hr', '3hr', '6hr', 'day', 'mon']`; equivalently, validation fails
exactly when some entry's frequency is outside the closed set, and every
list whose frequencies all lie in the set passes. -/
theorem c6_freq_validation (vl : List RawVar) :
    (∃ l, parsePodVarlist vl = Except.ok l) ↔ ∀ v ∈ vl, v.freq ∈ allowedFreqs := by
  induction vl with
  | nil => simp [parsePodVarlist]
  | cons v rest ih =>
    by_cases hf : v.freq ∈ allowedFreqs
    · have hc : allowedFreqs.contains v.freq = true := by simpa using hf
      cases hrest : parsePodVarlist rest with
      | ok l =>
        have hall : ∀ w ∈ rest, w.freq ∈ allowedFreqs := ih.mp ⟨l, hrest⟩
        simp only [parsePodVarlist, hc, if_true, hrest]
        simp [hf]
        exact hall
      | error e =>
        have hnall : ¬∀ w ∈ rest, w.freq ∈ allowedFreqs := by
          intro hall
          obtain ⟨l, hl⟩ := ih.mpr hall
          rw [hrest] at hl
          exact Except.noConfusion hl
        simp only [parsePodVarlist, hc, hrest, if_true]
        constructor
        · rintro ⟨l, hl⟩
          exact absurd hl (by simp)
        · intro hall
          exact absurd (fun w hw => hall w (List.mem_cons_of_mem v hw)) hnall
    · have hc : allowedFreqs.contains v.freq = false := by simpa using hf
      simp [parsePodVarlist, hc, hf]

/-! ### `setUp` deduplication helpers -/

theorem mem_envsAdd (envs : List String) (e a : String) :
    a ∈ envsAdd envs e ↔ a ∈ envs ∨ a = e := by
  by_cases hc : envs.contains e
  · have : e ∈ envs := by simpa using hc
    simp only [envsAdd, hc, if_true]
    constructor
    · exact Or.inl
    · rintro (h | rfl)
      · exact h
      · exact this
  · have h' : e ∉ envs := by simpa using hc
    simp [envsAdd, hc, h']

theorem nodup_envsAdd (envs : List String) (e : String) (h : envs.Nodup) :
    (envsAdd envs e).Nodup := by
  by_cases hc : envs.contains e
  · have h' : e ∈ envs := by simpa using hc
    simpa [envsAdd, hc, h'] using h
  · have h' : e ∉ envs := by simpa using hc
    simp [envsAdd, hc, h', List.nodup_append, h]

theorem setUpEnvs_foldl_mem {α : Type} (set_pod_env : α → String) (pods : List α)
    (acc : List String) (e : String) :
    e ∈ pods.foldl (fun envs pod => envsAdd envs (set_pod_env pod)) acc ↔
      e ∈ acc ∨ e ∈ pods.map set_pod_env := by
  induction pods generalizing acc with
  | nil => simp
  | cons p ps ih =>
    simp only [List.foldl_cons, ih, mem_envsAdd, List.map_cons, List.mem_cons]
    tauto

theorem setUpEnvs_foldl_nodup {α : Type} (set_pod_env : α → String) (pods : List α)
    (acc : List String) (h : acc.Nodup) :
    (pods.foldl (fun envs pod => envsAdd envs (set_pod_env pod)) acc).Nodup := by
  induction pods generalizing acc with
  | nil => simpa
  | cons p ps ih => exact ih _ (nodup_envsAdd _ _ h)

theorem mem_setUpEnvs {α : Type} (set_pod_env : α → String) (pods : List α) (e : String) :
    e ∈ setUpEnvs set_pod_env pods ↔ e ∈ pods.map set_pod_env := by
  simp [setUpEnvs, setUpEnvs_foldl_mem]

theorem setUpEnvs_nodup {α : Type} (set_pod_env : α → String) (pods : List α) :
    (setUpEnvs set_pod_env pods).Nodup :=
  setUpEnvs_foldl_nodup set_pod_env pods [] List.nodup_nil

/-- C3: after `setUp` binds every pod to an environment name,
`create_environment` is invoked exactly once for every distinct bound
environment name and never for any other name, even when several pods
resolve to the same name. -/
theorem c3_create_environment_once_per_env {α : Type} (set_pod_env : α → String)
    (pods : List α) (e : String) :
    (setUpCreateCalls set_pod_env pods).count e =
      if e ∈ pods.map set_pod_env then 1 else 0 := by
  by_cases he : e ∈ pods.map set_pod_env
  · rw [if_pos he]
    exact List.count_eq_one_of_mem (setUpEnvs_nodup set_pod_env pods)
      ((mem_setUpEnvs set_pod_env pods e).mpr he)
  · rw [if_neg he]
    rw [List.count_eq_zero]
    exact fun hmem => he ((mem_setUpEnvs set_pod_env pods e).mp hmem)

/-- C4: for a runnable pod whose spawn succeeds, the spawned command is the
four fragments `[activate, validate, run, deactivate]` joined in order by
`' && '` with empty fragments omitted; in particular for fragments
`"A"`, `"V"`, `"R"` and empty deactivate the chain is exactly
`"A && V && R"` (no dangling `&&`). -/
theorem c4_command_composition (fs : FS) (c d code_root : String) (test_mode : Bool)
    (activate_env_command deactivate_env_command : Pod → String)
    (spawn_ok : Pod → Bool) (p : Pod)
    (hrun : missingFiles fs c d p.varlist = [])
    (hok : spawn_ok p = true) :
    (spawnStep fs c d code_root test_mode activate_env_command deactivate_env_command
        spawn_ok p).spawned_cmd =
      some (String.intercalate " && "
        (([activate_env_command p, p.validateCommand code_root,
           (if test_mode then testModeEcho p.runCommand else p.runCommand),
           deactivate_env_command p]).filter (fun s => s ≠ ""))) ∧
    composeCommands false "A" "V" "R" "" = "A && V && R" := by
  constructor
  · simp [spawnStep, hrun, hok, composeCommands, runFragments]
  · rfl

/-- Witness for `c4_command_composition`: a pod with an empty varlist
(hence runnable) whose spawn succeeds, with fragments `"A" "V" "R" ""`. -/
theorem c4_command_composition_witness :
    (spawnStep [] "c" "d" "cr" false (fun _ => "A") (fun _ => "")
        (fun _ => true) ⟨"p", "R", "", [], [], [], [], [], []⟩).spawned_cmd =
      some (String.intercalate " && "
        ((["A", Pod.validateCommand "cr" ⟨"p", "R", "", [], [], [], [], [], []⟩,
           (if false then testModeEcho (Pod.runCommand ⟨"p", "R", "", [], [], [], [], [], []⟩)
            else Pod.runCommand ⟨"p", "R", "", [], [], [], [], [], []⟩),
           ""]).filter (fun s => s ≠ ""))) ∧
    composeCommands false "A" "V" "R" "" = "A && V && R" :=
  c4_command_composition [] "c" "d" "cr" false (fun _ => "A") (fun _ => "")
    (fun _ => true) ⟨"p", "R", "", [], [], [], [], [], []⟩
    (by simp [missingFiles, checkForVarlistFiles_nil]) rfl

/-- C5: enabling test mode changes only the run fragment of the composed
command (position 2 of the four ordered fragments), replacing it by the
reporting echo; the activate, validate and deactivate fragments are
identical to those with test mode disabled. -/
theorem c5_test_mode_replaces_only_run (activate validate run_c deactivate : String) :
    (∀ i : Nat, i ≠ 2 →
      (runFragments true activate validate run_c deactivate)[i]? =
        (runFragments false activate validate run_c deactivate)[i]?) ∧
    (runFragments true activate validate run_c deactivate)[2]? =
      some (testModeEcho run_c) ∧
    (runFragments false activate validate run_c deactivate)[2]? = some run_c := by
  refine ⟨?_, rfl, rfl⟩
  intro i hi
  match i with
  | 0 => rfl
  | 1 => rfl
  | 2 => exact absurd rfl hi
  | 3 => rfl
  | (n + 4) => rfl

/-- Witness for `c5_test_mode_replaces_only_run` at fragments
`"A" "V" "R" "D"` and index 0. -/
theorem c5_test_mode_replaces_only_run_witness :
    (runFragments true "A" "V" "R" "D")[0]? = (runFragments false "A" "V" "R" "D")[0]? :=
  (c5_test_mode_replaces_only_run "A" "V" "R" "D").1 0 (by decide)

/-- C8: a pod whose dependency resolution leaves a non-empty
`missing_files` list is skipped by the spawn loop before its log file is
opened: its run outcome records no opened log, no spawned subprocess and
`None` handles, yet `tearDown` is still invoked for it — and for every pod
of the batch — so every job reaches finalization. -/
theorem c8_skipped_pod_reaches_teardown (fs : FS) (c d code_root : String)
    (test_mode : Bool) (activate_env_command deactivate_env_command : Pod → String)
    (spawn_ok : Pod → Bool) (pods : List Pod) (envs : List String) (p : Pod)
    (hp : p ∈ pods)
    (hmiss : missingFiles fs c d p.varlist ≠ []) :
    (∃ o ∈ emRun fs c d code_root test_mode activate_env_command
        deactivate_env_command spawn_ok pods,
      o.pod = p ∧ o.log_opened = false ∧ o.spawned_cmd = none ∧
      o.process_obj = none ∧ o.logfile_obj = none) ∧
    p.name ∈ (emTearDown pods envs).1 ∧
    (∀ q ∈ pods, q.name ∈ (emTearDown pods envs).1) := by
  refine ⟨⟨waitStep (spawnStep fs c d code_root test_mode activate_env_command
      deactivate_env_command spawn_ok p), ?_, ?_⟩, ?_, ?_⟩
  · simp only [emRun, List.mem_map]
    exact ⟨spawnStep fs c d code_root test_mode activate_env_command
      deactivate_env_command spawn_ok p, ⟨p, hp, rfl⟩, rfl⟩
  · simp [spawnStep, waitStep, hmiss]
  · simp [emTearDown]
    exact ⟨p, hp, rfl⟩
  · intro q hq
    simp [emTearDown]
    exact ⟨q, hq, rfl⟩

/-- Witness for `c8_skipped_pod_reaches_teardown`: a single-pod batch whose
only pod requires the absent file `d/day/c.v.day.nc`. -/
theorem c8_skipped_pod_reaches_teardown_witness :
    (∃ o ∈ emRun [] "c" "d" "cr" false (fun _ => "") (fun _ => "") (fun _ => true)
        [⟨"p", "python", "drv", [⟨"v", "day", true, []⟩], [], [], [], [], []⟩],
      o.pod = ⟨"p", "python", "drv", [⟨"v", "day", true, []⟩], [], [], [], [], []⟩ ∧
      o.log_opened = false ∧ o.spawned_cmd = none ∧
      o.process_obj = none ∧ o.logfile_obj = none) ∧
    Pod.name ⟨"p", "python", "drv", [⟨"v", "day", true, []⟩], [], [], [], [], []⟩ ∈
      (emTearDown [⟨"p", "python", "drv", [⟨"v", "day", true, []⟩], [], [], [], [], []⟩]
        ["_MDTF-diagnostics-python"]).1 ∧
    (∀ q ∈ [(⟨"p", "python", "drv", [⟨"v", "day", true, []⟩], [], [], [], [], []⟩ : Pod)],
      q.name ∈ (emTearDown [⟨"p", "python", "drv", [⟨"v", "day", true, []⟩], [], [], [], [], []⟩]
        ["_MDTF-diagnostics-python"]).1) :=
  c8_skipped_pod_reaches_teardown [] "c" "d" "cr" false (fun _ => "") (fun _ => "")
    (fun _ => true) _ ["_MDTF-diagnostics-python"] _ (List.mem_singleton.mpr rfl)
    (by simp [missingFiles, checkForVarlistFiles, makefilepath, FS.isfile])

/-- C9: after the join loop of `run`, every pod's outcome — runnable,
skipped, or spawn-failed — has a `None` process handle and a `None`
log-file handle; every spawned subprocess was waited on and every opened
log file was closed. -/
theorem c9_handles_released (fs : FS) (c d code_root : String) (test_mode : Bool)
    (activate_env_command deactivate_env_command : Pod → String)
    (spawn_ok : Pod → Bool) (pods : List Pod) :
    ∀ o ∈ emRun fs c d code_root test_mode activate_env_command
        deactivate_env_command spawn_ok pods,
      o.process_obj = none ∧ o.logfile_obj = none ∧
      (∀ cmd, o.spawned_cmd = some cmd → o.waited = true) ∧
      (o.log_opened = true → o.log_closed = true) := by
  intro o ho
  simp only [emRun, List.mem_map] at ho
  obtain ⟨q, ⟨pd, hpd, rfl⟩, rfl⟩ := ho
  by_cases hm : missingFiles fs c d pd.varlist ≠ []
  · simp [spawnStep, waitStep, hm]
  · by_cases hs : spawn_ok pd = true
    · simp [spawnStep, waitStep, hm, hs]
    · simp [spawnStep, waitStep, hm, hs]

/-- Witness for `c9_handles_released`: the single runnable pod with empty
varlist and successful spawn. -/
theorem c9_handles_released_witness :
    (waitStep (spawnStep [] "c" "d" "cr" false (fun _ => "") (fun _ => "")
        (fun _ => true) ⟨"p", "python", "drv", [], [], [], [], [], []⟩)).process_obj = none ∧
    (waitStep (spawnStep [] "c" "d" "cr" false (fun _ => "") (fun _ => "")
        (fun _ => true) ⟨"p", "python", "drv", [], [], [], [], [], []⟩)).logfile_obj = none ∧
    (∀ cmd, (waitStep (spawnStep [] "c" "d" "cr" false (fun _ => "") (fun _ => "")
        (fun _ => true) ⟨"p", "python", "drv", [], [], [], [], [], []⟩)).spawned_cmd = some cmd →
      (waitStep (spawnStep [] "c" "d" "cr" false (fun _ => "") (fun _ => "")
        (fun _ => true) ⟨"p", "python", "drv", [], [], [], [], [], []⟩)).waited = true) ∧
    ((waitStep (spawnStep [] "c" "d" "cr" false (fun _ => "") (fun _ => "")
        (fun _ => true) ⟨"p", "python", "drv", [], [], [], [], [], []⟩)).log_opened = true →
      (waitStep (spawnStep [] "c" "d" "cr" false (fun _ => "") (fun _ => "")
        (fun _ => true) ⟨"p", "python", "drv", [], [], [], [], [], []⟩)).log_closed = true) :=
  c9_handles_released [] "c" "d" "cr" false (fun _ => "") (fun _ => "") (fun _ => true)
    [⟨"p", "python", "drv", [], [], [], [], [], []⟩] _ (List.mem_map.mpr
      ⟨spawnStep [] "c" "d" "cr" false (fun _ => "") (fun _ => "") (fun _ => true)
        ⟨"p", "python", "drv", [], [], [], [], [], []⟩,
       List.mem_map.mpr ⟨_, List.mem_singleton.mpr rfl, rfl⟩, rfl⟩)

/-- C2: evaluating the conda environment-creation code at a batch of two
pods bound to the NCL and python environments, where only the NCL spec
file exists: `_call_conda_create` for the python environment raises an
uncaught `UnboundLocalError` (`conda_prefix` is assigned only in the
spec-file-exists branch but referenced unconditionally), so `setUp` aborts
for the **whole batch**, the NCL pods included — the failure is neither a
per-environment fatal error nor confined to the failing environment, and
when the spec file does exist the creation command is spawned
fire-and-forget with its exit status never checked. -/
theorem c2_missing_spec_crashes_whole_setup :
    condaSetUp ["CR/src/conda_env_NCL.yml"] (fun _ => false) "CR" "ER"
        [["ncl"], ["python"]] =
      Except.error (PyError.unboundLocal "conda_prefix") ∧
    callCondaCreate [] "CR" "ER" "_MDTF-diagnostics-python" =
      Except.error (PyError.unboundLocal "conda_prefix") := by
  constructor <;> rfl

end MDTF
